import Mathlib

/-!
Verification development for the outgoing-message delivery and
decryption-failure recovery subsystem of the Signal-Desktop repository.

Part A embeds the recovery protocol handler (onRetryRequest,
onDecryptionError and their helpers).  Part B embeds the per-recipient
fan-out dispatcher (sendNormalMessage and getMessageRecipients).

Stateful code is embedded by explicit state passing: each entry point
takes the process-wide retry ledger plus an environment describing the
external stores, and returns the new ledger, the ordered list of
observable effects (confirm acknowledgement, session archival, durable
proto lookup, job enqueues, session resets) and an optional raised error.
-/

set_option maxHeartbeats 1600000
set_option linter.unnecessarySeqFocus false

/-- RETRY_LIMIT from the source: at most 5 recovery attempts per timestamp. -/
def RETRY_LIMIT : Nat := 5

/-- One hour in milliseconds, as in the source. -/
def HOUR : Nat := 60 * 60 * 1000

/-- One day in milliseconds, as in the source. -/
def DAY : Nat := 24 * HOUR

/-- The process-wide retry ledger (the retryRecord Map in the source),
keyed by event timestamp.  Newest binding first. -/
abbrev RetryLedger := List (Nat × Nat)

/-- retryRecord.get with default 0: the count recorded for a timestamp. -/
def ledgerGet (ledger : RetryLedger) (t : Nat) : Nat :=
  match ledger.find? (fun p => p.1 == t) with
  | some p => p.2
  | none => 0

/-- retryRecord.set: record a new count for a timestamp. -/
def ledgerSet (ledger : RetryLedger) (t c : Nat) : RetryLedger :=
  (t, c) :: ledger

/-- Modelled from the spec: isOlderThan from ts/util/timestamp.ts is not
under src/; the spec reads "if T is older than a configurable max-age
window", so a timestamp is older than the window when timestamp plus the
window does not reach the current time. -/
def isOlderThan (now timestamp delta : Nat) : Bool :=
  decide (timestamp + delta ≤ now)

/-- Decoded content proto.  Proto.Content.decode/encode are modelled as
the identity, so the stored proto is kept in decoded form; the fields the
handler inspects (storyMessage presence, senderKeyDistributionMessage)
are explicit and the rest of the envelope is an opaque payload. -/
structure ContentProto where
  hasStoryMessage : Bool
  senderKeyDistributionMessage : Option String
  payload : String
deriving DecidableEq

/-- The durable record of what was transmitted (getSentProtoByRecipient). -/
structure SentProtoRecord where
  contentHint : Nat
  messageIds : List String
  proto : ContentProto
  timestamp : Nat
  urgent : Bool
deriving DecidableEq

/-- A conversation model as seen through this subsystem: the attribute
reads and predicate methods used by the dispatcher and the recovery
handler (isMe, isGroup, isGroupV2, hasMember, getMemberConversationIds,
senderKeyInfo.distributionId, groupId, isUntrusted, isUnregistered,
isBlocked, isConversationAccepted, getSendTarget). -/
structure Conversation where
  id : String
  uuid : Option String
  isMe : Bool
  isGroup : Bool
  isGroupV2 : Bool
  members : List String
  memberConversationIds : List String
  senderKeyDistributionId : Option String
  groupIdAttr : Option String
  untrusted : Bool
  unregistered : Bool
  blocked : Bool
  accepted : Bool
  sendTarget : Option String
deriving DecidableEq

/-- A stored message row as read by the recovery handler
(getMessageById / getMessagesBySentAt). -/
structure MessageRow where
  conversationId : String
  storyDistributionListId : Option String
deriving DecidableEq

/-- A story distribution list from the redux store. -/
structure DistributionList where
  id : String
  memberUuids : List String
deriving DecidableEq

/-- A job handed to the per-conversation job queue
(conversationJobQueue.add). -/
inductive JobSpec where
  | savedProto (conversationId : String) (contentHint : Nat) (groupId : Option String)
      (story : Bool) (proto : ContentProto) (timestamp : Nat) (urgent : Bool)
  | senderKeyDistribution (conversationId : String) (groupId : String)
  | nullMessage (conversationId : String)
  | resendRequest (conversationId : String) (contentHint : Nat) (groupId : Option String)
      (timestamp : Nat)
deriving DecidableEq

/-- Observable effects of a recovery-handler run, in order. -/
inductive Eff where
  | confirm
  | archiveSession (requesterUuid : String) (requesterDevice : Nat)
  | protoLookup (recipientUuid : String) (timestamp : Nat)
  | enqueue (job : JobSpec)
  | scheduleLightSessionReset (senderUuid : String) (senderDevice : Nat)
  | addChatSessionRefreshed (conversationId : String)
deriving DecidableEq

/-- Environment of the recovery handler: remote-config flags, clock, our
device id, and the external stores (session store, sent-proto store,
conversation controller, message store, story distribution lists,
sender-key store, peer capabilities).  Conversations created on demand by
getOrCreate for a private uuid are identified by that uuid. -/
structure RetryEnv where
  senderKeyRetryEnabled : Bool
  retryRespondMaxAgeConfig : Option Nat
  now : Nat
  ourDeviceId : Nat
  messagingAvailable : Bool
  loadSession : String → Nat → Option String
  getSentProtoByRecipient : String → Nat → Option SentProtoRecord
  getConversation : String → Option Conversation
  getMessageById : String → Option MessageRow
  getMessagesBySentAt : Nat → List MessageRow
  distributionLists : List DistributionList
  storyDistributionSenderKeyId : String → Option String
  getSenderKeyDistributionMessage : String → Option String
  senderKeyCapability : String → Bool

/-- The fields of a RetryRequestEvent. -/
structure RetryRequestData where
  groupId : Option String
  requesterUuid : String
  requesterDevice : Nat
  senderDevice : Nat
  sentAt : Nat
  ratchetKey : Option String
deriving DecidableEq

/-- The fields of a DecryptionErrorEvent used by the handler. -/
structure DecryptionErrorData where
  senderUuid : String
  senderDevice : Nat
  timestamp : Nat
  cipherTextBytes : Option String
  cipherTextType : Option Nat
  contentHint : Nat
  groupId : Option String
deriving DecidableEq

/-- Result of running a recovery entry point: the updated ledger, the
effects produced before returning or before the raised error, and the
raised error if any. -/
structure RunOut where
  ledger : RetryLedger
  effs : List Eff
  error : Option String
deriving DecidableEq

/-- archiveSessionOnMatch: compare the requester claimed ratchet key with
the current session for our own device and archive the session on match.
Sessions are modelled by their current ratchet key. -/
def archiveSessionOnMatch (env : RetryEnv) (options : RetryRequestData) : Bool × List Eff :=
  if env.ourDeviceId != options.senderDevice || options.ratchetKey.isNone then (false, [])
  else
    match env.loadSession options.requesterUuid options.requesterDevice with
    | none => (false, [])
    | some sessionRatchetKey =>
      if options.ratchetKey == some sessionRatchetKey then
        (true, [Eff.archiveSession options.requesterUuid options.requesterDevice])
      else (false, [])

/-- The null-message half of the fallback: only sent when a session was
archived in the preceding archival step. -/
def sendNullMessageFallback (requesterUuid : String) (didArchive : Bool) : List Eff :=
  if didArchive then [Eff.enqueue (JobSpec.nullMessage requesterUuid)] else []

/-- sendDistributionMessageOrNullMessage: the
distribution-message-or-null-message fallback from the source. -/
def sendDistributionMessageOrNullMessage (env : RetryEnv) (options : RetryRequestData)
    (didArchive : Bool) : List Eff × Option String :=
  if !env.messagingAvailable then ([], some "messaging is not available") else
  match options.groupId with
  | some groupId =>
    match env.getConversation groupId with
    | some group =>
      if !group.members.contains options.requesterUuid then
        ([], some "Requester is not a member of the group")
      else
        match group.senderKeyDistributionId with
        | some _ =>
          ([Eff.enqueue (JobSpec.senderKeyDistribution options.requesterUuid groupId)], none)
        | none => (sendNullMessageFallback options.requesterUuid didArchive, none)
    | none => (sendNullMessageFallback options.requesterUuid didArchive, none)
  | none => (sendNullMessageFallback options.requesterUuid didArchive, none)

/-- getRetryConversation: resolve the conversation of the message being
retried, failing over to the requested group id. -/
def getRetryConversation (env : RetryEnv) (messageIds : List String)
    (requestGroupId : Option String) : Option Conversation :=
  match messageIds with
  | [messageId] =>
    match env.getMessageById messageId with
    | none => requestGroupId.bind env.getConversation
    | some message => env.getConversation message.conversationId
  | _ => requestGroupId.bind env.getConversation

/-- maybeAddSenderKeyDistributionMessage: inject a sender key distribution
message when the retried message belongs to a GroupV2 conversation the
requester is still a member of; hard error if membership was lost. -/
def maybeAddSenderKeyDistributionMessage (env : RetryEnv) (contentProto : ContentProto)
    (messageIds : List String) (requestGroupId : Option String) (requesterUuid : String)
    (_timestamp : Nat) : Except String (ContentProto × Option String) :=
  let conversation := getRetryConversation env messageIds requestGroupId
  if !env.messagingAvailable then Except.error "messaging is not available" else
  match conversation with
  | none => Except.ok (contentProto, none)
  | some conversation =>
    if !conversation.members.contains requesterUuid then
      Except.error "Recipient is not a member of the conversation"
    else if !conversation.isGroupV2 then Except.ok (contentProto, none)
    else
      match conversation.senderKeyDistributionId with
      | some distributionId =>
        match env.getSenderKeyDistributionMessage distributionId with
        | none => Except.error "sender key distribution message is not in database"
        | some skdm =>
          Except.ok ({ contentProto with senderKeyDistributionMessage := some skdm },
            conversation.groupIdAttr)
      | none => Except.ok (contentProto, conversation.groupIdAttr)

/-- Result of checkDistributionListAndAddSKDM: the requester may be
dropped (confirm already called), the content may proceed (with or
without an injected SKDM), or a lookup may raise. -/
inductive SKDMCheckResult where
  | dropped
  | proceed (contentProto : ContentProto)
  | failed (message : String)
deriving DecidableEq

/-- The messages.some scan of checkDistributionListAndAddSKDM: the first
message at this sent timestamp whose story distribution list contains the
requester. -/
def findStoryDistributionList (lists : List DistributionList) (messages : List MessageRow)
    (requesterUuid : String) : Option DistributionList :=
  messages.findSome? fun m =>
    match m.storyDistributionListId with
    | none => none
    | some listId =>
      match lists.find? (fun l => l.id == listId) with
      | none => none
      | some l => if l.memberUuids.contains requesterUuid then some l else none

/-- checkDistributionListAndAddSKDM: assert the requester is still in a
story distribution list the message was sent to, and add its sender key
distribution message. -/
def checkDistributionListAndAddSKDM (env : RetryEnv) (contentProto : ContentProto)
    (timestamp : Nat) (requesterUuid : String) : SKDMCheckResult :=
  let messages := env.getMessagesBySentAt timestamp
  match findStoryDistributionList env.distributionLists messages requesterUuid with
  | none => SKDMCheckResult.dropped
  | some distributionList =>
    match env.storyDistributionSenderKeyId distributionList.id with
    | none => SKDMCheckResult.proceed contentProto
    | some distributionId =>
      match env.getSenderKeyDistributionMessage distributionId with
      | none => SKDMCheckResult.failed "sender key distribution message is not in database"
      | some skdm =>
        SKDMCheckResult.proceed { contentProto with senderKeyDistributionMessage := some skdm }

/-- The SavedProto job enqueued on a successful resend: it carries the
stored record contentHint, timestamp and urgent flag unchanged. -/
def savedProtoJob (requesterUuid : String) (sentProto : SentProtoRecord)
    (groupId : Option String) (contentProto : ContentProto) : Eff :=
  Eff.enqueue (JobSpec.savedProto requesterUuid sentProto.contentHint groupId
    contentProto.hasStoryMessage contentProto sentProto.timestamp sentProto.urgent)

/-- onRetryRequest: the ResendRequest entry point. -/
def onRetryRequest (env : RetryEnv) (ledger : RetryLedger) (ev : RetryRequestData) : RunOut :=
  if !env.senderKeyRetryEnabled then
    { ledger := ledger, effs := [Eff.confirm], error := none }
  else
  let retryCount := ledgerGet ledger ev.sentAt + 1
  let ledger1 := ledgerSet ledger ev.sentAt retryCount
  if RETRY_LIMIT < retryCount then
    { ledger := ledger1, effs := [Eff.confirm], error := none }
  else
  let retryRespondMaxAge := env.retryRespondMaxAgeConfig.getD (14 * DAY)
  let archived := archiveSessionOnMatch env ev
  let didArchive := archived.1
  let archEffs := archived.2
  if isOlderThan env.now ev.sentAt retryRespondMaxAge then
    let fb := sendDistributionMessageOrNullMessage env ev didArchive
    match fb.2 with
    | some e => { ledger := ledger1, effs := archEffs ++ fb.1, error := some e }
    | none => { ledger := ledger1, effs := archEffs ++ fb.1 ++ [Eff.confirm], error := none }
  else
  let lookEffs := [Eff.protoLookup ev.requesterUuid ev.sentAt]
  match env.getSentProtoByRecipient ev.requesterUuid ev.sentAt with
  | none =>
    let fb := sendDistributionMessageOrNullMessage env ev didArchive
    match fb.2 with
    | some e => { ledger := ledger1, effs := archEffs ++ lookEffs ++ fb.1, error := some e }
    | none =>
      { ledger := ledger1, effs := archEffs ++ lookEffs ++ fb.1 ++ [Eff.confirm], error := none }
  | some sentProto =>
    if !env.messagingAvailable then
      { ledger := ledger1, effs := archEffs ++ lookEffs, error := some "messaging is not available" }
    else
    match maybeAddSenderKeyDistributionMessage env sentProto.proto sentProto.messageIds
        ev.groupId ev.requesterUuid sentProto.timestamp with
    | Except.error e => { ledger := ledger1, effs := archEffs ++ lookEffs, error := some e }
    | Except.ok result =>
      let contentProto0 := result.1
      let groupId := result.2
      if contentProto0.hasStoryMessage && groupId.isNone then
        match checkDistributionListAndAddSKDM env contentProto0 sentProto.timestamp
            ev.requesterUuid with
        | SKDMCheckResult.dropped =>
          { ledger := ledger1, effs := archEffs ++ lookEffs ++ [Eff.confirm], error := none }
        | SKDMCheckResult.failed e =>
          { ledger := ledger1, effs := archEffs ++ lookEffs, error := some e }
        | SKDMCheckResult.proceed contentProto1 =>
          { ledger := ledger1,
            effs := archEffs ++ lookEffs ++
              [savedProtoJob ev.requesterUuid sentProto groupId contentProto1, Eff.confirm],
            error := none }
      else
        { ledger := ledger1,
          effs := archEffs ++ lookEffs ++
            [savedProtoJob ev.requesterUuid sentProto groupId contentProto0, Eff.confirm],
          error := none }

/-- startAutomaticSessionReset: schedule a light session reset on the
idle queue and add a session-refreshed event to the timeline.  This path
never touches the retry ledger. -/
def startAutomaticSessionReset (senderUuid : String) (senderDevice : Nat) : List Eff :=
  [Eff.scheduleLightSessionReset senderUuid senderDevice,
   Eff.addChatSessionRefreshed senderUuid]

/-- requestResend: synthesize a ResendRequest job from a decryption
error, failing over to automatic session reset when the ciphertext is
missing. -/
def requestResend (env : RetryEnv) (decryptionError : DecryptionErrorData) :
    List Eff × Option String :=
  if !env.messagingAvailable then ([], some "messaging is not available") else
  match decryptionError.cipherTextBytes, decryptionError.cipherTextType with
  | some _, some _ =>
    ([Eff.enqueue (JobSpec.resendRequest decryptionError.senderUuid
        decryptionError.contentHint decryptionError.groupId decryptionError.timestamp)], none)
  | _, _ =>
    (startAutomaticSessionReset decryptionError.senderUuid decryptionError.senderDevice, none)

/-- onDecryptionError: the DecryptionError entry point. -/
def onDecryptionError (env : RetryEnv) (ledger : RetryLedger) (ev : DecryptionErrorData) :
    RunOut :=
  let retryCount := ledgerGet ledger ev.timestamp + 1
  let ledger1 := ledgerSet ledger ev.timestamp retryCount
  if RETRY_LIMIT < retryCount then
    { ledger := ledger1, effs := [Eff.confirm], error := none }
  else
  if env.senderKeyCapability ev.senderUuid && env.senderKeyRetryEnabled then
    let rr := requestResend env ev
    match rr.2 with
    | some e => { ledger := ledger1, effs := rr.1, error := some e }
    | none => { ledger := ledger1, effs := rr.1 ++ [Eff.confirm], error := none }
  else
    { ledger := ledger1,
      effs := startAutomaticSessionReset ev.senderUuid ev.senderDevice ++ [Eff.confirm],
      error := none }

/-- Number of confirm acknowledgements in an effect list. -/
def confirmCount : List Eff → Nat
  | [] => 0
  | Eff.confirm :: rest => confirmCount rest + 1
  | _ :: rest => confirmCount rest

/-- The jobs enqueued in an effect list, in order. -/
def enqueuedJobs : List Eff → List JobSpec
  | [] => []
  | Eff.enqueue j :: rest => j :: enqueuedJobs rest
  | _ :: rest => enqueuedJobs rest

/-- Whether an effect list contains a durable sent-proto lookup. -/
def hasProtoLookup : List Eff → Bool
  | [] => false
  | Eff.protoLookup _ _ :: _ => true
  | _ :: rest => hasProtoLookup rest

/-- The (contentHint, timestamp, urgent) payload of every SavedProto job
in an effect list. -/
def savedProtoPayloads : List Eff → List (Nat × Nat × Bool)
  | [] => []
  | Eff.enqueue (JobSpec.savedProto _ contentHint _ _ _ timestamp urgent) :: rest =>
    (contentHint, timestamp, urgent) :: savedProtoPayloads rest
  | _ :: rest => savedProtoPayloads rest

/-- Whether a job is a sender key distribution or null message (the only
jobs the fallback may produce). -/
def isFallbackJob : JobSpec → Bool
  | JobSpec.senderKeyDistribution _ _ => true
  | JobSpec.nullMessage _ => true
  | _ => false

/-!
Part B: the per-recipient fan-out dispatcher (sendNormalMessage.ts).
-/

/-- Modelled from the spec: SendState from ts/messages/MessageSendState.ts
is not under src/; the spec data model gives one of Pending, Sent, Failed
per recipient. -/
inductive SendStatus where
  | pending
  | sent
  | failed
deriving DecidableEq

/-- Modelled from the spec: isSent from ts/messages/MessageSendState.ts is
not under src/; a recipient counts as sent exactly in the Sent state. -/
def isSent : SendStatus → Bool
  | SendStatus.sent => true
  | _ => false

/-- The dispatcher view of an outgoing message: identity, owning
conversation, guard flags and the per-recipient send state map
(sendStateByConversationId, as an ordered association list). -/
structure MessageRec where
  id : String
  conversationId : String
  isOutgoing : Bool
  erased : Bool
  sendStateByConversationId : List (String × SendStatus)
  hasReaction : Bool
  hasStoryMessage : Bool
deriving DecidableEq

/-- The ConversationQueueJobBundle fields the dispatcher branches on. -/
structure JobBundle where
  isFinalAttempt : Bool
  shouldContinue : Bool
deriving DecidableEq

/-- Observable effects of one dispatch attempt, in order.  Durable writes
to the message record (markMessageFailed, and the final-attempt error
save inside message.send) are distinguished from the transient in-memory
error list captured by the saveErrors callback. -/
inductive DEff where
  | conversationStoppedByVerification (untrustedUuids : List String)
  | persistFailed (errors : List String)
  | persistSendErrors (errors : List String)
  | transientSaveErrors (errors : List String)
  | sendSync (recipients : List String)
  | sendGroup (recipients : List String)
  | sendDirect (recipients : List String)
deriving DecidableEq

/-- Environment of one dispatch attempt: the conversation controller
lookup, the story-reaction permission, the per-recipient transport
outcome, and whether the server asked us to stop (the 508/428 give-up
trigger consumed by the failure classifier). -/
structure DispatchEnv where
  getConversation : String → Option Conversation
  canReact : Bool
  transportSuccess : String → Bool
  serverStop : Bool

/-- Result of one dispatch attempt: final per-recipient send state,
ordered effects, and the error the attempt finished with (a rejected
job promise), if any. -/
structure DispatchOut where
  sendState : List (String × SendStatus)
  effs : List DEff
  error : Option String
deriving DecidableEq

/-- The recipient sets computed by getMessageRecipients. -/
structure ResolvedRecipients where
  allRecipientIdentifiers : List String
  recipientIdentifiersWithoutMe : List String
  sentRecipientIdentifiers : List String
  untrustedUuids : List String
deriving DecidableEq

/-- The forEach loop of getMessageRecipients over the entries of the
send-state map, mirrored as structural recursion (the head entry is
classified first, matching iteration order). -/
def getMessageRecipientsFrom (lookup : String → Option Conversation)
    (conversation : Conversation) :
    List (String × SendStatus) → ResolvedRecipients
  | [] =>
    { allRecipientIdentifiers := [], recipientIdentifiersWithoutMe := []
      sentRecipientIdentifiers := [], untrustedUuids := [] }
  | (recipientConversationId, sendState) :: rest =>
    let acc := getMessageRecipientsFrom lookup conversation rest
    match lookup recipientConversationId with
    | none => acc
    | some recipient =>
      let isRecipientMe := recipient.isMe
      if !conversation.memberConversationIds.contains recipientConversationId
          && !isRecipientMe then acc
      else if recipient.untrusted then
        match recipient.uuid with
        | none => acc
        | some uuid => { acc with untrustedUuids := uuid :: acc.untrustedUuids }
      else if recipient.unregistered then acc
      else if recipient.blocked then acc
      else
        match recipient.sendTarget with
        | none => acc
        | some recipientIdentifier =>
          if isSent sendState then
            { acc with
              sentRecipientIdentifiers := recipientIdentifier :: acc.sentRecipientIdentifiers }
          else
            { acc with
              allRecipientIdentifiers := recipientIdentifier :: acc.allRecipientIdentifiers,
              recipientIdentifiersWithoutMe :=
                if !isRecipientMe then recipientIdentifier :: acc.recipientIdentifiersWithoutMe
                else acc.recipientIdentifiersWithoutMe }

/-- getMessageRecipients: recompute the recipient sets for a message from
the current conversation membership and current send state. -/
def getMessageRecipients (lookup : String → Option Conversation)
    (conversation : Conversation) (message : MessageRec) : ResolvedRecipients :=
  getMessageRecipientsFrom lookup conversation message.sendStateByConversationId

/-- Modelled from the spec: message.markFailed from ts/models/messages.ts
is not under src/; on give-up the message is marked Failed for every
recipient still Pending (a recipient already Sent is not reverted). -/
def markFailedState (sendState : List (String × SendStatus)) : List (String × SendStatus) :=
  sendState.map fun p =>
    (p.1, if p.2 = SendStatus.pending then SendStatus.failed else p.2)

/-- Modelled from the spec: the per-recipient send-state update performed
by message.send from the transport per-recipient result (not under src/);
a success moves the recipient to Sent, a failure to Failed, and a
recipient already Sent is never transitioned backward. -/
def updateFromResult (status : SendStatus) (ok : Bool) : SendStatus :=
  if isSent status then status
  else if ok then SendStatus.sent else SendStatus.failed

/-- Apply the transport per-recipient result to the entries of the
send-state map whose resolved send target was part of this send. -/
def applyTransport (lookup : String → Option Conversation) (success : String → Bool)
    (recipients : List String) (sendState : List (String × SendStatus)) :
    List (String × SendStatus) :=
  sendState.map fun p =>
    (p.1,
      match lookup p.1 with
      | some recipient =>
        match recipient.sendTarget with
        | some i => if recipients.contains i then updateFromResult p.2 (success i) else p.2
        | none => p.2
      | none => p.2)

/-- didSendToEveryone from the source: every recipient state is sent. -/
def didSendToEveryone (sendState : List (String × SendStatus)) : Bool :=
  sendState.all fun p => isSent p.2

/-- The shared send phase of the dispatcher: run the transport over the
chosen recipients, update per-recipient state, route per-recipient errors
through the saveErrors callback (transient when the attempt is not final,
durable when it is), and classify the overall outcome.  syncStyle marks
the sendSyncMessageOnly path, whose promise rejects on error, while the
message.send path swallows errors and only the did-not-fully-send check
can raise. -/
def sendPhase (env : DispatchEnv) (bundle : JobBundle) (message : MessageRec)
    (sendEff : DEff) (recipients : List String) (syncStyle : Bool) : DispatchOut :=
  let newState := applyTransport env.getConversation env.transportSuccess recipients
    message.sendStateByConversationId
  let errs := (recipients.filter fun i => !env.transportSuccess i).map
    fun i => String.append "send failed to " i
  let messageSendErrors := if bundle.isFinalAttempt then [] else errs
  let saveEffs :=
    if errs.isEmpty then ([] : List DEff)
    else if bundle.isFinalAttempt then [DEff.persistSendErrors errs]
    else [DEff.transientSaveErrors errs]
  let thrown :=
    if syncStyle then !errs.isEmpty
    else !messageSendErrors.isEmpty && !didSendToEveryone newState
  if !thrown then { sendState := newState, effs := [sendEff] ++ saveEffs, error := none }
  else if bundle.isFinalAttempt || env.serverStop then
    { sendState := markFailedState newState,
      effs := [sendEff] ++ saveEffs ++ [DEff.persistFailed messageSendErrors],
      error := some "message did not fully send" }
  else
    { sendState := newState, effs := [sendEff] ++ saveEffs,
      error := some "message did not fully send" }

/-- The body of sendNormalMessage once the message was found and the
recipient sets were resolved.  The failure classifier
handleMultipleSendErrors is modelled from the spec (its file is not under
src/): it gives up, invoking the markFailed callback, when the attempt is
final or the server asked us to stop, and rethrows. -/
def sendNormalMessageWithRecipients (env : DispatchEnv) (conversation : Conversation)
    (bundle : JobBundle) (message : MessageRec) (r : ResolvedRecipients) : DispatchOut :=
  if message.conversationId != conversation.id then
    { sendState := message.sendStateByConversationId, effs := [], error := none }
  else if !message.isOutgoing then
    { sendState := message.sendStateByConversationId, effs := [], error := none }
  else if message.erased then
    { sendState := message.sendStateByConversationId, effs := [], error := none }
  else if !bundle.shouldContinue then
    { sendState := markFailedState message.sendStateByConversationId,
      effs := [DEff.persistFailed ["Message send ran out of time"]], error := none }
  else if !r.untrustedUuids.isEmpty then
    if bundle.isFinalAttempt || env.serverStop then
      { sendState := markFailedState message.sendStateByConversationId,
        effs := [DEff.conversationStoppedByVerification r.untrustedUuids,
          DEff.persistFailed []],
        error := some "sending blocked because conversations were untrusted" }
    else
      { sendState := message.sendStateByConversationId,
        effs := [DEff.conversationStoppedByVerification r.untrustedUuids],
        error := some "sending blocked because conversations were untrusted" }
  else if r.allRecipientIdentifiers.isEmpty then
    { sendState := message.sendStateByConversationId, effs := [], error := none }
  else if message.hasReaction && !message.hasStoryMessage then
    { sendState := message.sendStateByConversationId, effs := [],
      error := some "Only story reactions can be sent as normal messages" }
  else if message.hasReaction && !env.canReact then
    { sendState := markFailedState message.sendStateByConversationId,
      effs := [DEff.persistFailed ["Could not react to story"]], error := none }
  else if r.recipientIdentifiersWithoutMe.isEmpty then
    if !conversation.isMe && !conversation.isGroup
        && r.sentRecipientIdentifiers.isEmpty then
      { sendState := markFailedState message.sendStateByConversationId,
        effs := [DEff.persistFailed ["No valid recipients"]], error := none }
    else
      sendPhase env bundle message (DEff.sendSync r.allRecipientIdentifiers)
        r.allRecipientIdentifiers true
  else if conversation.isGroup then
    sendPhase env bundle message (DEff.sendGroup r.recipientIdentifiersWithoutMe)
      r.recipientIdentifiersWithoutMe false
  else if !conversation.accepted then
    { sendState := markFailedState message.sendStateByConversationId,
      effs := [DEff.persistFailed ["Message request was not accepted"]], error := none }
  else if conversation.unregistered then
    { sendState := markFailedState message.sendStateByConversationId,
      effs := [DEff.persistFailed ["Contact no longer has a Signal account"]], error := none }
  else if conversation.blocked then
    { sendState := markFailedState message.sendStateByConversationId,
      effs := [DEff.persistFailed ["Contact is blocked"]], error := none }
  else
    sendPhase env bundle message (DEff.sendDirect r.recipientIdentifiersWithoutMe)
      r.recipientIdentifiersWithoutMe false

/-- sendNormalMessage: one dispatch attempt for one outgoing message.
The message argument is the result of getMessageById; the recipient sets
are recomputed fresh from the current conversation state. -/
def sendNormalMessage (env : DispatchEnv) (conversation : Conversation)
    (bundle : JobBundle) (message : Option MessageRec) : DispatchOut :=
  match message with
  | none => { sendState := [], effs := [], error := none }
  | some message =>
    sendNormalMessageWithRecipients env conversation bundle message
      (getMessageRecipients env.getConversation conversation message)

/-- Whether a dispatch effect is a transport send call. -/
def isTransportEff : DEff → Bool
  | DEff.sendSync _ => true
  | DEff.sendGroup _ => true
  | DEff.sendDirect _ => true
  | _ => false

/-- Whether a dispatch effect list contains a transport send call. -/
def hasTransportEff (effs : List DEff) : Bool :=
  effs.any isTransportEff

/-- Whether a dispatch effect is a durable write of errors to the
message record. -/
def isDurablePersistEff : DEff → Bool
  | DEff.persistFailed _ => true
  | DEff.persistSendErrors _ => true
  | _ => false

/-- Whether a dispatch effect list contains a durable error write. -/
def hasDurablePersist (effs : List DEff) : Bool :=
  effs.any isDurablePersistEff

/-- Count of sync sends in a dispatch effect list. -/
def syncSendCount : List DEff → Nat
  | [] => 0
  | DEff.sendSync _ :: rest => syncSendCount rest + 1
  | _ :: rest => syncSendCount rest

/-- Count of group sends in a dispatch effect list. -/
def groupSendCount : List DEff → Nat
  | [] => 0
  | DEff.sendGroup _ :: rest => groupSendCount rest + 1
  | _ :: rest => groupSendCount rest

/-- Count of direct sends in a dispatch effect list. -/
def directSendCount : List DEff → Nat
  | [] => 0
  | DEff.sendDirect _ :: rest => directSendCount rest + 1
  | _ :: rest => directSendCount rest

/-- The status recorded for a recipient conversation id in a send-state
map. -/
def statusOf (sendState : List (String × SendStatus)) (cid : String) : Option SendStatus :=
  (sendState.find? fun p => p.1 == cid).map fun p => p.2

/-- The resolved send target of a send-state entry that survives every
filter of getMessageRecipients (conversation lookup, membership unless
self, trust, registration, block, target present), with its isMe flag. -/
def resolvedTarget (lookup : String → Option Conversation) (conversation : Conversation)
    (recipientConversationId : String) : Option (String × Bool) :=
  match lookup recipientConversationId with
  | none => none
  | some recipient =>
    if !conversation.memberConversationIds.contains recipientConversationId
        && !recipient.isMe then none
    else if recipient.untrusted then none
    else if recipient.unregistered then none
    else if recipient.blocked then none
    else
      match recipient.sendTarget with
      | none => none
      | some recipientIdentifier => some (recipientIdentifier, recipient.isMe)

/-- The send targets of the entries already marked sent. -/
def sentTargets (lookup : String → Option Conversation) (conversation : Conversation)
    (entries : List (String × SendStatus)) : List String :=
  entries.filterMap fun p =>
    match resolvedTarget lookup conversation p.1 with
    | some (i, _) => if isSent p.2 then some i else none
    | none => none

/-- The send targets of the entries not yet sent (the to-send set). -/
def pendingTargets (lookup : String → Option Conversation) (conversation : Conversation)
    (entries : List (String × SendStatus)) : List String :=
  entries.filterMap fun p =>
    match resolvedTarget lookup conversation p.1 with
    | some (i, _) => if isSent p.2 then none else some i
    | none => none

/-!
Concrete instances used by witnesses and counterexamples.
-/

/-- A retry environment with every external store empty and the
sender-key retry feature flag enabled. -/
def emptyRetryEnv : RetryEnv where
  senderKeyRetryEnabled := true
  retryRespondMaxAgeConfig := none
  now := 0
  ourDeviceId := 1
  messagingAvailable := true
  loadSession := fun _ _ => none
  getSentProtoByRecipient := fun _ _ => none
  getConversation := fun _ => none
  getMessageById := fun _ => none
  getMessagesBySentAt := fun _ => []
  distributionLists := []
  storyDistributionSenderKeyId := fun _ => none
  getSenderKeyDistributionMessage := fun _ => none
  senderKeyCapability := fun _ => true

/-- A plain retry request with no group and no ratchet key. -/
def plainRetryRequest (sentAt : Nat) : RetryRequestData where
  groupId := none
  requesterUuid := "requester"
  requesterDevice := 2
  senderDevice := 2
  sentAt := sentAt
  ratchetKey := none

/-- A plain decryption error carrying ciphertext. -/
def plainDecryptionError (timestamp : Nat) : DecryptionErrorData where
  senderUuid := "sender"
  senderDevice := 2
  timestamp := timestamp
  cipherTextBytes := some "bytes"
  cipherTextType := some 3
  contentHint := 1
  groupId := none

/-- A stored sent-proto record at timestamp 1000 with distinctive
contentHint and urgent flag. -/
def sentProtoAt1000 : SentProtoRecord where
  contentHint := 55
  messageIds := ["m1"]
  proto := { hasStoryMessage := false, senderKeyDistributionMessage := none, payload := "content" }
  timestamp := 1000
  urgent := true

/-- Environment holding the stored proto for the requester at 1000. -/
def envWithSentProto : RetryEnv :=
  { emptyRetryEnv with
    now := 5000
    getSentProtoByRecipient := fun r t =>
      if r == "requester" && t == 1000 then some sentProtoAt1000 else none }

/-- A group conversation that does not contain the requester. -/
def groupWithoutRequester : Conversation where
  id := "group-conv"
  uuid := none
  isMe := false
  isGroup := true
  isGroupV2 := true
  members := ["someone-else"]
  memberConversationIds := []
  senderKeyDistributionId := some "dist-1"
  groupIdAttr := some "G"
  untrusted := false
  unregistered := false
  blocked := false
  accepted := true
  sendTarget := none

/-- Environment whose clock is beyond the 14-day window for timestamp 0
and which resolves group id G to a group without the requester. -/
def envTooOldNonMember : RetryEnv :=
  { emptyRetryEnv with
    now := 15 * DAY
    getConversation := fun g => if g == "G" then some groupWithoutRequester else none }

/-- A retry request for timestamp 0 carrying group id G. -/
def retryRequestForG : RetryRequestData :=
  { plainRetryRequest 0 with groupId := some "G" }

/-- A group conversation containing the requester, with an active
sender-key distribution. -/
def groupWithRequester : Conversation where
  id := "group-conv"
  uuid := none
  isMe := false
  isGroup := true
  isGroupV2 := true
  members := ["requester"]
  memberConversationIds := []
  senderKeyDistributionId := some "D"
  groupIdAttr := some "G"
  untrusted := false
  unregistered := false
  blocked := false
  accepted := true
  sendTarget := none

/-- Environment resolving group id G to the group with the requester. -/
def envWithRequesterGroup : RetryEnv :=
  { emptyRetryEnv with
    getConversation := fun g => if g == "G" then some groupWithRequester else none }

/-- A plain non-self recipient conversation with a send target. -/
def plainRecipient (cid target : String) : Conversation where
  id := cid
  uuid := some cid
  isMe := false
  isGroup := false
  isGroupV2 := false
  members := []
  memberConversationIds := []
  senderKeyDistributionId := none
  groupIdAttr := none
  untrusted := false
  unregistered := false
  blocked := false
  accepted := true
  sendTarget := some target

/-- Our own conversation, with a send target. -/
def selfRecipient : Conversation :=
  { plainRecipient "me" "ME" with isMe := true }

/-- An untrusted pending recipient. -/
def untrustedRecipient : Conversation :=
  { plainRecipient "u" "U-target" with untrusted := true, uuid := some "U" }

/-- A three-member group conversation (r1, r2, r3 plus self). -/
def groupConversation : Conversation where
  id := "conv-g"
  uuid := none
  isMe := false
  isGroup := true
  isGroupV2 := true
  members := []
  memberConversationIds := ["r1", "r2", "r3", "me", "u"]
  senderKeyDistributionId := none
  groupIdAttr := some "G"
  untrusted := false
  unregistered := false
  blocked := false
  accepted := true
  sendTarget := none

/-- The note-to-self conversation. -/
def selfConversation : Conversation :=
  { plainRecipient "me" "ME" with isMe := true, memberConversationIds := ["me"] }

/-- Conversation-controller lookup for the dispatch scenarios. -/
def dispatchLookup : String → Option Conversation := fun cid =>
  if cid == "r1" then some (plainRecipient "r1" "R1")
  else if cid == "r2" then some (plainRecipient "r2" "R2")
  else if cid == "r3" then some (plainRecipient "r3" "R3")
  else if cid == "me" then some selfRecipient
  else if cid == "u" then some untrustedRecipient
  else none

/-- Dispatch environment where every transport send succeeds except the
recipient identifier R3. -/
def dispatchEnvR3Fails : DispatchEnv where
  getConversation := dispatchLookup
  canReact := true
  transportSuccess := fun i => !(i == "R3")
  serverStop := false

/-- Dispatch environment where every transport send succeeds. -/
def dispatchEnvAllOk : DispatchEnv where
  getConversation := dispatchLookup
  canReact := true
  transportSuccess := fun _ => true
  serverStop := false

/-- A non-final attempt with budget remaining. -/
def bundleNotFinal : JobBundle where
  isFinalAttempt := false
  shouldContinue := true

/-- A final attempt with budget remaining. -/
def bundleFinal : JobBundle where
  isFinalAttempt := true
  shouldContinue := true

/-- A group message with three pending recipients and self already sent. -/
def groupMessage : MessageRec where
  id := "m-group"
  conversationId := "conv-g"
  isOutgoing := true
  erased := false
  sendStateByConversationId :=
    [("r1", SendStatus.pending), ("r2", SendStatus.pending), ("r3", SendStatus.pending),
     ("me", SendStatus.sent)]
  hasReaction := false
  hasStoryMessage := false

/-- A group message whose only pending recipient is untrusted. -/
def untrustedMessage : MessageRec where
  id := "m-untrusted"
  conversationId := "conv-g"
  isOutgoing := true
  erased := false
  sendStateByConversationId := [("u", SendStatus.pending), ("r1", SendStatus.pending)]
  hasReaction := false
  hasStoryMessage := false

/-- A note-to-self message already sent to self. -/
def selfSentMessage : MessageRec where
  id := "m-self"
  conversationId := "me"
  isOutgoing := true
  erased := false
  sendStateByConversationId := [("me", SendStatus.sent)]
  hasReaction := false
  hasStoryMessage := false

/-- A note-to-self message still pending for self. -/
def selfPendingMessage : MessageRec where
  id := "m-self-pending"
  conversationId := "me"
  isOutgoing := true
  erased := false
  sendStateByConversationId := [("me", SendStatus.pending)]
  hasReaction := false
  hasStoryMessage := false

/-!
Helper lemmas about effect-list observers.
-/

theorem confirmCount_append (a b : List Eff) :
    confirmCount (a ++ b) = confirmCount a + confirmCount b := by
  induction a with
  | nil => simp [confirmCount]
  | cons e rest ih => cases e <;> simp [confirmCount, ih] <;> omega

theorem enqueuedJobs_append (a b : List Eff) :
    enqueuedJobs (a ++ b) = enqueuedJobs a ++ enqueuedJobs b := by
  induction a with
  | nil => simp [enqueuedJobs]
  | cons e rest ih => cases e <;> simp [enqueuedJobs, ih]

theorem hasProtoLookup_append (a b : List Eff) :
    hasProtoLookup (a ++ b) = (hasProtoLookup a || hasProtoLookup b) := by
  induction a with
  | nil => simp [hasProtoLookup]
  | cons e rest ih => cases e <;> simp [hasProtoLookup, ih]

theorem savedProtoPayloads_append (a b : List Eff) :
    savedProtoPayloads (a ++ b) = savedProtoPayloads a ++ savedProtoPayloads b := by
  induction a with
  | nil => simp [savedProtoPayloads]
  | cons e rest ih =>
    cases e with
    | enqueue j => cases j <;> simp [savedProtoPayloads, ih]
    | _ => simp [savedProtoPayloads, ih]

theorem archiveSessionOnMatch_effs (env : RetryEnv) (o : RetryRequestData) :
    (archiveSessionOnMatch env o).2 = [] ∨
    ∃ u d, (archiveSessionOnMatch env o).2 = [Eff.archiveSession u d] := by
  unfold archiveSessionOnMatch
  split
  · exact Or.inl rfl
  · split
    · exact Or.inl rfl
    · split
      · exact Or.inr ⟨o.requesterUuid, o.requesterDevice, rfl⟩
      · exact Or.inl rfl

theorem confirmCount_archiveSessionOnMatch (env : RetryEnv) (o : RetryRequestData) :
    confirmCount (archiveSessionOnMatch env o).2 = 0 := by
  rcases archiveSessionOnMatch_effs env o with h | ⟨u, d, h⟩ <;> simp [h, confirmCount]

theorem hasProtoLookup_archiveSessionOnMatch (env : RetryEnv) (o : RetryRequestData) :
    hasProtoLookup (archiveSessionOnMatch env o).2 = false := by
  rcases archiveSessionOnMatch_effs env o with h | ⟨u, d, h⟩ <;> simp [h, hasProtoLookup]

theorem savedProtoPayloads_archiveSessionOnMatch (env : RetryEnv) (o : RetryRequestData) :
    savedProtoPayloads (archiveSessionOnMatch env o).2 = [] := by
  rcases archiveSessionOnMatch_effs env o with h | ⟨u, d, h⟩ <;> simp [h, savedProtoPayloads]

theorem enqueuedJobs_archiveSessionOnMatch (env : RetryEnv) (o : RetryRequestData) :
    enqueuedJobs (archiveSessionOnMatch env o).2 = [] := by
  rcases archiveSessionOnMatch_effs env o with h | ⟨u, d, h⟩ <;> simp [h, enqueuedJobs]

theorem fallback_effs (env : RetryEnv) (o : RetryRequestData) (didArchive : Bool) :
    (sendDistributionMessageOrNullMessage env o didArchive).1 = [] ∨
    (∃ gid, (sendDistributionMessageOrNullMessage env o didArchive).1 =
      [Eff.enqueue (JobSpec.senderKeyDistribution o.requesterUuid gid)]) ∨
    (sendDistributionMessageOrNullMessage env o didArchive).1 =
      [Eff.enqueue (JobSpec.nullMessage o.requesterUuid)] := by
  unfold sendDistributionMessageOrNullMessage sendNullMessageFallback
  split
  · exact Or.inl rfl
  · split
    · rename_i gid heq
      split
      · split
        · exact Or.inl rfl
        · split
          · exact Or.inr (Or.inl ⟨gid, rfl⟩)
          · split
            · exact Or.inr (Or.inr rfl)
            · exact Or.inl rfl
      · split
        · exact Or.inr (Or.inr rfl)
        · exact Or.inl rfl
    · split
      · exact Or.inr (Or.inr rfl)
      · exact Or.inl rfl

theorem confirmCount_fallback (env : RetryEnv) (o : RetryRequestData) (didArchive : Bool) :
    confirmCount (sendDistributionMessageOrNullMessage env o didArchive).1 = 0 := by
  rcases fallback_effs env o didArchive with h | ⟨gid, h⟩ | h <;> simp [h, confirmCount]

theorem hasProtoLookup_fallback (env : RetryEnv) (o : RetryRequestData) (didArchive : Bool) :
    hasProtoLookup (sendDistributionMessageOrNullMessage env o didArchive).1 = false := by
  rcases fallback_effs env o didArchive with h | ⟨gid, h⟩ | h <;> simp [h, hasProtoLookup]

theorem savedProtoPayloads_fallback (env : RetryEnv) (o : RetryRequestData) (didArchive : Bool) :
    savedProtoPayloads (sendDistributionMessageOrNullMessage env o didArchive).1 = [] := by
  rcases fallback_effs env o didArchive with h | ⟨gid, h⟩ | h <;> simp [h, savedProtoPayloads]

theorem enqueuedJobs_fallback_all (env : RetryEnv) (o : RetryRequestData) (didArchive : Bool) :
    (enqueuedJobs (sendDistributionMessageOrNullMessage env o didArchive).1).all
      isFallbackJob = true := by
  rcases fallback_effs env o didArchive with h | ⟨gid, h⟩ | h <;>
    simp [h, enqueuedJobs, isFallbackJob]

theorem confirmCount_startAutomaticSessionReset (u : String) (d : Nat) :
    confirmCount (startAutomaticSessionReset u d) = 0 := by
  simp [startAutomaticSessionReset, confirmCount]

theorem confirmCount_requestResend (env : RetryEnv) (e : DecryptionErrorData) :
    confirmCount (requestResend env e).1 = 0 := by
  unfold requestResend
  split
  · simp [confirmCount]
  · split <;> simp [confirmCount, confirmCount_startAutomaticSessionReset]

theorem ledgerGet_ledgerSet (l : RetryLedger) (t c : Nat) :
    ledgerGet (ledgerSet l t c) t = c := by
  simp [ledgerGet, ledgerSet, List.find?]

theorem onRetryRequest_rate_limited (env : RetryEnv) (ledger : RetryLedger)
    (ev : RetryRequestData) (h : RETRY_LIMIT ≤ ledgerGet ledger ev.sentAt) :
    (onRetryRequest env ledger ev).effs = [Eff.confirm] ∧
    (onRetryRequest env ledger ev).error = none := by
  simp only [onRetryRequest]
  split
  · exact ⟨rfl, rfl⟩
  · split
    · exact ⟨rfl, rfl⟩
    · rename_i hlt
      exfalso
      omega

theorem onDecryptionError_rate_limited (env : RetryEnv) (ledger : RetryLedger)
    (ev : DecryptionErrorData) (h : RETRY_LIMIT ≤ ledgerGet ledger ev.timestamp) :
    (onDecryptionError env ledger ev).effs = [Eff.confirm] ∧
    (onDecryptionError env ledger ev).error = none := by
  simp only [onDecryptionError]
  split
  · exact ⟨rfl, rfl⟩
  · rename_i hlt
    exfalso
    omega

/-!
Claim C2: rate limiting of further signals.
-/

/-- C2: once the retry ledger counter for an event timestamp has reached
RETRY_LIMIT (5), every further ResendRequest or DecryptionError signal
bearing that timestamp is acknowledged (its confirm callback is invoked)
and dropped without action: the run produces only the confirm effect, so
no session archival, no resend and no new job, and raises no error. -/
theorem C2_rate_limit_drops_further_signals :
    (∀ (env : RetryEnv) (ledger : RetryLedger) (ev : RetryRequestData),
      RETRY_LIMIT ≤ ledgerGet ledger ev.sentAt →
      (onRetryRequest env ledger ev).effs = [Eff.confirm] ∧
      (onRetryRequest env ledger ev).error = none) ∧
    (∀ (env : RetryEnv) (ledger : RetryLedger) (ev : DecryptionErrorData),
      RETRY_LIMIT ≤ ledgerGet ledger ev.timestamp →
      (onDecryptionError env ledger ev).effs = [Eff.confirm] ∧
      (onDecryptionError env ledger ev).error = none) := by
  exact ⟨fun env ledger ev h => onRetryRequest_rate_limited env ledger ev h,
    fun env ledger ev h => onDecryptionError_rate_limited env ledger ev h⟩

/-- Witness for C2 at a concrete ledger that has already counted 5
signals for timestamp 42. -/
theorem C2_rate_limit_drops_further_signals_witness :
    RETRY_LIMIT ≤ ledgerGet [(42, 5)] 42 ∧
    (onRetryRequest emptyRetryEnv [(42, 5)] (plainRetryRequest 42)).effs = [Eff.confirm] ∧
    (onDecryptionError emptyRetryEnv [(42, 5)] (plainDecryptionError 42)).effs =
      [Eff.confirm] :=
  ⟨by decide,
   (C2_rate_limit_drops_further_signals.1 emptyRetryEnv [(42, 5)] (plainRetryRequest 42)
     (by decide)).1,
   (C2_rate_limit_drops_further_signals.2 emptyRetryEnv [(42, 5)] (plainDecryptionError 42)
     (by decide)).1⟩

/-!
Claim C9: the two signal kinds share one rate-limit ledger.
-/

/-- Counterexample for C9: the claim says whether a ResendRequest with
timestamp t is dropped as rate-limited depends only on previously seen
ResendRequests with t and is unaffected by DecryptionError signals with
the same timestamp.  In the code both handlers share the one retryRecord
map keyed by timestamp: with a fresh ledger the very first ResendRequest
at t = 777 is processed (it performs the proto lookup), but after five
DecryptionError signals at the same timestamp — and still zero prior
ResendRequests — the identical ResendRequest is dropped as rate-limited
(only confirm). -/
theorem C9_counterexample :
    (onRetryRequest emptyRetryEnv [] (plainRetryRequest 777)).effs ≠ [Eff.confirm] ∧
    (onRetryRequest emptyRetryEnv
      (onDecryptionError emptyRetryEnv
        (onDecryptionError emptyRetryEnv
          (onDecryptionError emptyRetryEnv
            (onDecryptionError emptyRetryEnv
              (onDecryptionError emptyRetryEnv [] (plainDecryptionError 777)).ledger
              (plainDecryptionError 777)).ledger
            (plainDecryptionError 777)).ledger
          (plainDecryptionError 777)).ledger
        (plainDecryptionError 777)).ledger
      (plainRetryRequest 777)).effs = [Eff.confirm] := by
  constructor
  · decide
  · decide

/-- C9 (amended): the two inbound signal kinds are rate-limited through a
single shared ledger keyed by the original message timestamp.  Each
handler (onRetryRequest only when the feature flag is enabled) increments
the same per-timestamp counter, and once the shared counter has reached
RETRY_LIMIT both kinds of signal with that timestamp are dropped, so
DecryptionError signals at t count against ResendRequests at t and vice
versa. -/
theorem C9_shared_retry_ledger :
    (∀ (env : RetryEnv) (ledger : RetryLedger) (de : DecryptionErrorData),
      ledgerGet (onDecryptionError env ledger de).ledger de.timestamp =
        ledgerGet ledger de.timestamp + 1) ∧
    (∀ (env : RetryEnv) (ledger : RetryLedger) (ev : RetryRequestData),
      env.senderKeyRetryEnabled = true →
      ledgerGet (onRetryRequest env ledger ev).ledger ev.sentAt =
        ledgerGet ledger ev.sentAt + 1) ∧
    (∀ (env : RetryEnv) (ledger : RetryLedger) (ev : RetryRequestData)
        (de : DecryptionErrorData),
      RETRY_LIMIT ≤ ledgerGet ledger ev.sentAt →
      RETRY_LIMIT ≤ ledgerGet ledger de.timestamp →
      (onRetryRequest env ledger ev).effs = [Eff.confirm] ∧
      (onDecryptionError env ledger de).effs = [Eff.confirm]) := by
  refine ⟨?_, ?_, ?_⟩
  · intro env ledger de
    simp only [onDecryptionError]
    repeat' split
    all_goals exact ledgerGet_ledgerSet ledger de.timestamp (ledgerGet ledger de.timestamp + 1)
  · intro env ledger ev hflag
    simp only [onRetryRequest, hflag, Bool.not_true, Bool.false_eq_true, if_false]
    repeat' split
    all_goals exact ledgerGet_ledgerSet ledger ev.sentAt (ledgerGet ledger ev.sentAt + 1)
  · intro env ledger ev de h1 h2
    exact ⟨(onRetryRequest_rate_limited env ledger ev h1).1,
      (onDecryptionError_rate_limited env ledger de h2).1⟩

/-- Witness for C9 at a concrete ledger: one DecryptionError at t = 42
moves the shared counter from 5 to 6, and at count 5 both kinds of
signal at 42 are dropped. -/
theorem C9_shared_retry_ledger_witness :
    ledgerGet (onDecryptionError emptyRetryEnv [(42, 5)] (plainDecryptionError 42)).ledger 42 =
      ledgerGet [(42, 5)] 42 + 1 ∧
    ledgerGet (onRetryRequest emptyRetryEnv [(42, 5)] (plainRetryRequest 42)).ledger 42 =
      ledgerGet [(42, 5)] 42 + 1 ∧
    (onRetryRequest emptyRetryEnv [(42, 5)] (plainRetryRequest 42)).effs = [Eff.confirm] :=
  ⟨C9_shared_retry_ledger.1 emptyRetryEnv [(42, 5)] (plainDecryptionError 42),
   C9_shared_retry_ledger.2.1 emptyRetryEnv [(42, 5)] (plainRetryRequest 42) (by decide),
   (C9_shared_retry_ledger.2.2 emptyRetryEnv [(42, 5)] (plainRetryRequest 42)
     (plainDecryptionError 42) (by decide) (by decide)).1⟩

/-!
Claim C10: confirm is invoked exactly once on every non-raising run.
-/

/-- C10: every execution of onRetryRequest or onDecryptionError that
completes without raising invokes the event confirm callback exactly
once, on every drop path included (feature flag disabled, rate-limited,
message too old, sent proto absent, requester not in the story
distribution list). -/
theorem C10_confirm_invoked_exactly_once :
    (∀ (env : RetryEnv) (ledger : RetryLedger) (ev : RetryRequestData),
      (onRetryRequest env ledger ev).error = none →
      confirmCount (onRetryRequest env ledger ev).effs = 1) ∧
    (∀ (env : RetryEnv) (ledger : RetryLedger) (ev : DecryptionErrorData),
      (onDecryptionError env ledger ev).error = none →
      confirmCount (onDecryptionError env ledger ev).effs = 1) := by
  constructor
  · intro env ledger ev
    simp only [onRetryRequest]
    repeat' split
    all_goals intro h
    all_goals simp_all [confirmCount_append, confirmCount_archiveSessionOnMatch,
      confirmCount_fallback, confirmCount, savedProtoJob]
  · intro env ledger ev
    simp only [onDecryptionError]
    repeat' split
    all_goals intro h
    all_goals simp_all [confirmCount_append, confirmCount_requestResend,
      confirmCount_startAutomaticSessionReset, confirmCount]

/-- Witness for C10: a run that drops because the feature flag is off,
and a full successful DecryptionError run, each confirm exactly once. -/
theorem C10_confirm_invoked_exactly_once_witness :
    (onRetryRequest emptyRetryEnv [] (plainRetryRequest 9)).error = none ∧
    confirmCount (onRetryRequest emptyRetryEnv [] (plainRetryRequest 9)).effs = 1 ∧
    confirmCount (onDecryptionError emptyRetryEnv [] (plainDecryptionError 9)).effs = 1 :=
  ⟨by decide,
   C10_confirm_invoked_exactly_once.1 emptyRetryEnv [] (plainRetryRequest 9) (by decide),
   C10_confirm_invoked_exactly_once.2 emptyRetryEnv [] (plainDecryptionError 9) (by decide)⟩

/-!
Claim C3: a resend reuses the stored contentHint, timestamp and urgent
flag exactly.
-/

/-- C3: for a ResendRequest whose stored SentProtoRecord exists and whose
timestamp is within the max-age window, the SavedProto job enqueued by
onRetryRequest carries exactly the stored record contentHint, urgent flag
and timestamp — the payload timestamp equals the original sentAt and is
never regenerated from the current time (the environment clock does not
appear in the enqueued payload). -/
theorem C3_resend_carries_exact_stored_fields (env : RetryEnv) (ledger : RetryLedger)
    (ev : RetryRequestData) (rec : SentProtoRecord) (cp : ContentProto) (gid : Option String)
    (hflag : env.senderKeyRetryEnabled = true)
    (hrate : ledgerGet ledger ev.sentAt + 1 ≤ RETRY_LIMIT)
    (hage : isOlderThan env.now ev.sentAt (env.retryRespondMaxAgeConfig.getD (14 * DAY)) = false)
    (hproto : env.getSentProtoByRecipient ev.requesterUuid ev.sentAt = some rec)
    (hkey : rec.timestamp = ev.sentAt)
    (hmsg : env.messagingAvailable = true)
    (hskdm : maybeAddSenderKeyDistributionMessage env rec.proto rec.messageIds ev.groupId
      ev.requesterUuid rec.timestamp = Except.ok (cp, gid))
    (hstory : (cp.hasStoryMessage && gid.isNone) = false ∨
      ∃ cp2, checkDistributionListAndAddSKDM env cp rec.timestamp ev.requesterUuid =
        SKDMCheckResult.proceed cp2) :
    savedProtoPayloads (onRetryRequest env ledger ev).effs =
      [(rec.contentHint, ev.sentAt, rec.urgent)] ∧
    (onRetryRequest env ledger ev).error = none := by
  have hlt : ¬ (RETRY_LIMIT < ledgerGet ledger ev.sentAt + 1) := by omega
  simp only [onRetryRequest, hflag, Bool.not_true, Bool.false_eq_true, if_false, if_neg hlt,
    hage, hproto, hmsg, hskdm]
  by_cases hsb : (cp.hasStoryMessage && gid.isNone) = true
  · rcases hstory with hs | ⟨cp2, hc⟩
    · exact absurd hsb (by simp [hs])
    · simp only [hsb, if_true, hc]
      constructor
      · simp [savedProtoPayloads_append, savedProtoPayloads_archiveSessionOnMatch,
          savedProtoPayloads, savedProtoJob, hkey]
      · trivial
  · simp only [Bool.not_eq_true] at hsb
    simp only [hsb, Bool.false_eq_true, if_false]
    constructor
    · simp [savedProtoPayloads_append, savedProtoPayloads_archiveSessionOnMatch,
        savedProtoPayloads, savedProtoJob, hkey]
    · trivial

/-- Witness for C3, the spec scenario: a stored proto record at T = 1000
for the requester; the ResendRequest for T = 1000 produces exactly one
SavedProto job whose payload is the stored (contentHint, timestamp,
urgent) = (55, 1000, true), with the clock at 5000, not the current
time. -/
theorem C3_resend_carries_exact_stored_fields_witness :
    envWithSentProto.getSentProtoByRecipient "requester" 1000 = some sentProtoAt1000 ∧
    savedProtoPayloads (onRetryRequest envWithSentProto [] (plainRetryRequest 1000)).effs =
      [(55, 1000, true)] ∧
    (onRetryRequest envWithSentProto [] (plainRetryRequest 1000)).error = none := by
  have h := C3_resend_carries_exact_stored_fields envWithSentProto [] (plainRetryRequest 1000)
    sentProtoAt1000 sentProtoAt1000.proto none (by decide) (by decide) (by decide) (by decide)
    (by decide) (by decide) (by rfl) (Or.inl (by decide))
  refine ⟨by decide, ?_, h.2⟩
  have h1 := h.1
  simpa [plainRetryRequest, sentProtoAt1000] using h1

/-!
Claim C4: a too-old ResendRequest never resends content.
-/

/-- Counterexample for C4: the claim asserts that for a too-old
ResendRequest only the fallback runs and the event is confirmed.  At this
concrete input (timestamp 0, clock 15 days, group G resolved but no
longer containing the requester) the fallback raises the hard
not-a-member error, so the run ends in an error and confirm is never
invoked for the event. -/
theorem C4_counterexample :
    isOlderThan envTooOldNonMember.now retryRequestForG.sentAt
      (envTooOldNonMember.retryRespondMaxAgeConfig.getD (14 * DAY)) = true ∧
    (onRetryRequest envTooOldNonMember [] retryRequestForG).error ≠ none ∧
    confirmCount (onRetryRequest envTooOldNonMember [] retryRequestForG).effs = 0 := by
  refine ⟨by decide, by decide, by decide⟩

/-- C4 (amended): for every ResendRequest whose original timestamp is
older than the max-age window, onRetryRequest never resends content — it
performs no sent-proto lookup and enqueues no SavedProto job even if a
matching record exists; every job it enqueues belongs to the
distribution-message-or-null-message fallback, and whenever the run
completes without raising (the fallback raises when the request carries a
group id whose group no longer contains the requester) the event is
confirmed. -/
theorem C4_too_old_never_resends (env : RetryEnv) (ledger : RetryLedger)
    (ev : RetryRequestData)
    (hage : isOlderThan env.now ev.sentAt (env.retryRespondMaxAgeConfig.getD (14 * DAY)) =
      true) :
    hasProtoLookup (onRetryRequest env ledger ev).effs = false ∧
    savedProtoPayloads (onRetryRequest env ledger ev).effs = [] ∧
    (enqueuedJobs (onRetryRequest env ledger ev).effs).all isFallbackJob = true ∧
    ((onRetryRequest env ledger ev).error = none →
      confirmCount (onRetryRequest env ledger ev).effs = 1) := by
  simp only [onRetryRequest]
  split
  · exact ⟨rfl, rfl, rfl, fun _ => rfl⟩
  · split
    · exact ⟨rfl, rfl, rfl, fun _ => rfl⟩
    · split
      · rename_i e heq
        refine ⟨?_, ?_, ?_, ?_⟩
        · simp [hasProtoLookup_append, hasProtoLookup_archiveSessionOnMatch,
            hasProtoLookup_fallback]
        · simp [savedProtoPayloads_append, savedProtoPayloads_archiveSessionOnMatch,
            savedProtoPayloads_fallback]
        · simp [enqueuedJobs_append, enqueuedJobs_archiveSessionOnMatch,
            enqueuedJobs_fallback_all]
        · intro h
          exact absurd h (by simp)
      · refine ⟨?_, ?_, ?_, ?_⟩
        · simp [hasProtoLookup_append, hasProtoLookup_archiveSessionOnMatch,
            hasProtoLookup_fallback, hasProtoLookup]
        · simp [savedProtoPayloads_append, savedProtoPayloads_archiveSessionOnMatch,
            savedProtoPayloads_fallback, savedProtoPayloads]
        · simp [enqueuedJobs_append, enqueuedJobs_archiveSessionOnMatch,
            enqueuedJobs_fallback_all, enqueuedJobs]
        · intro h
          simp [confirmCount_append, confirmCount_archiveSessionOnMatch,
            confirmCount_fallback, confirmCount]

/-- Witness for C4 at a too-old request with no group: the run performs
no proto lookup, enqueues nothing, and confirms once. -/
theorem C4_too_old_never_resends_witness :
    isOlderThan envTooOldNonMember.now (plainRetryRequest 0).sentAt
      (envTooOldNonMember.retryRespondMaxAgeConfig.getD (14 * DAY)) = true ∧
    hasProtoLookup (onRetryRequest envTooOldNonMember [] (plainRetryRequest 0)).effs = false ∧
    savedProtoPayloads (onRetryRequest envTooOldNonMember [] (plainRetryRequest 0)).effs =
      [] ∧
    confirmCount (onRetryRequest envTooOldNonMember [] (plainRetryRequest 0)).effs = 1 := by
  have h := C4_too_old_never_resends envTooOldNonMember [] (plainRetryRequest 0) (by decide)
  exact ⟨by decide, h.1, h.2.1, h.2.2.2 (by decide)⟩

/-!
Claim C8: the distribution-message-or-null-message fallback.
-/

/-- C8: for every invocation of the fallback (with messaging available):
if the request carries a group id whose resolved group no longer contains
the requester, a hard error is raised and nothing is enqueued; otherwise
if the group has an active sender-key distribution, exactly one
sender-key distribution job is enqueued and no null message; otherwise if
a session was archived in the preceding archival step, exactly one
null-message job is enqueued; otherwise nothing is sent. -/
theorem C8_fallback_distribution_or_null :
    (∀ (env : RetryEnv) (o : RetryRequestData) (didArchive : Bool) (gid : String)
        (g : Conversation), env.messagingAvailable = true →
      o.groupId = some gid → env.getConversation gid = some g →
      g.members.contains o.requesterUuid = false →
      (sendDistributionMessageOrNullMessage env o didArchive).2.isSome = true ∧
      enqueuedJobs (sendDistributionMessageOrNullMessage env o didArchive).1 = []) ∧
    (∀ (env : RetryEnv) (o : RetryRequestData) (didArchive : Bool) (gid : String)
        (g : Conversation) (d : String), env.messagingAvailable = true →
      o.groupId = some gid → env.getConversation gid = some g →
      g.members.contains o.requesterUuid = true →
      g.senderKeyDistributionId = some d →
      sendDistributionMessageOrNullMessage env o didArchive =
        ([Eff.enqueue (JobSpec.senderKeyDistribution o.requesterUuid gid)], none)) ∧
    (∀ (env : RetryEnv) (o : RetryRequestData), env.messagingAvailable = true →
      (o.groupId = none ∨
        (∃ gid, o.groupId = some gid ∧ env.getConversation gid = none) ∨
        (∃ gid g, o.groupId = some gid ∧ env.getConversation gid = some g ∧
          g.members.contains o.requesterUuid = true ∧ g.senderKeyDistributionId = none)) →
      sendDistributionMessageOrNullMessage env o true =
        ([Eff.enqueue (JobSpec.nullMessage o.requesterUuid)], none) ∧
      sendDistributionMessageOrNullMessage env o false = ([], none)) := by
  refine ⟨?_, ?_, ?_⟩
  · intro env o didArchive gid g hmsg hgid hconv hmem
    have hmem2 : o.requesterUuid ∉ g.members := by simpa using hmem
    simp [sendDistributionMessageOrNullMessage, hmsg, hgid, hconv, hmem2, enqueuedJobs]
  · intro env o didArchive gid g d hmsg hgid hconv hmem hdist
    have hmem2 : o.requesterUuid ∈ g.members := by simpa using hmem
    simp [sendDistributionMessageOrNullMessage, hmsg, hgid, hconv, hmem2, hdist]
  · intro env o hmsg hcase
    rcases hcase with hnone | ⟨gid, hgid, hconv⟩ | ⟨gid, g, hgid, hconv, hmem, hdist⟩
    · constructor <;>
        simp [sendDistributionMessageOrNullMessage, hmsg, hnone, sendNullMessageFallback]
    · constructor <;>
        simp [sendDistributionMessageOrNullMessage, hmsg, hgid, hconv, sendNullMessageFallback]
    · have hmem2 : o.requesterUuid ∈ g.members := by simpa using hmem
      constructor <;>
        simp [sendDistributionMessageOrNullMessage, hmsg, hgid, hconv, hmem2, hdist,
          sendNullMessageFallback]

/-- Witness for C8: with group G containing the requester and an active
sender-key distribution D, the fallback enqueues exactly the sender-key
distribution job and no null message, archived session or not. -/
theorem C8_fallback_distribution_or_null_witness :
    envWithRequesterGroup.getConversation "G" = some groupWithRequester ∧
    sendDistributionMessageOrNullMessage envWithRequesterGroup retryRequestForG false =
      ([Eff.enqueue (JobSpec.senderKeyDistribution retryRequestForG.requesterUuid "G")],
        none) :=
  ⟨by decide,
   C8_fallback_distribution_or_null.2.1 envWithRequesterGroup retryRequestForG false "G"
     groupWithRequester "D" (by decide) (by decide) (by decide) (by decide) (by decide)⟩

/-!
Helper lemmas about per-recipient send-state updates.
-/

theorem statusOf_mapEntries (f : String → SendStatus → SendStatus)
    (ss : List (String × SendStatus)) (cid : String) :
    statusOf (ss.map fun p => (p.1, f p.1 p.2)) cid = (statusOf ss cid).map (f cid) := by
  induction ss with
  | nil => rfl
  | cons p rest ih =>
    simp only [List.map_cons, statusOf] at ih ⊢
    by_cases h : (p.1 == cid) = true
    · have hcid : p.1 = cid := eq_of_beq h
      simp [List.find?, h, hcid]
    · have hf : (p.1 == cid) = false := by simpa using h
      simp only [List.find?, hf]
      exact ih

theorem markFailedState_statusOf (ss : List (String × SendStatus)) (cid : String) :
    statusOf (markFailedState ss) cid =
      (statusOf ss cid).map
        (fun s => if s = SendStatus.pending then SendStatus.failed else s) :=
  statusOf_mapEntries (fun _ s => if s = SendStatus.pending then SendStatus.failed else s)
    ss cid

theorem applyTransport_statusOf (lookup : String → Option Conversation)
    (success : String → Bool) (recipients : List String)
    (ss : List (String × SendStatus)) (cid : String) :
    statusOf (applyTransport lookup success recipients ss) cid =
      (statusOf ss cid).map (fun s =>
        match lookup cid with
        | some recipient =>
          match recipient.sendTarget with
          | some i => if recipients.contains i then updateFromResult s (success i) else s
          | none => s
        | none => s) :=
  statusOf_mapEntries
    (fun c s =>
      match lookup c with
      | some recipient =>
        match recipient.sendTarget with
        | some i => if recipients.contains i then updateFromResult s (success i) else s
        | none => s
      | none => s) ss cid

theorem markFailedState_preserves_sent (ss : List (String × SendStatus)) (cid : String)
    (h : statusOf ss cid = some SendStatus.sent) :
    statusOf (markFailedState ss) cid = some SendStatus.sent := by
  rw [markFailedState_statusOf, h]
  rfl

theorem updateFromResult_sent (ok : Bool) :
    updateFromResult SendStatus.sent ok = SendStatus.sent := by
  simp [updateFromResult, isSent]

theorem applyTransport_preserves_sent (lookup : String → Option Conversation)
    (success : String → Bool) (recipients : List String)
    (ss : List (String × SendStatus)) (cid : String)
    (h : statusOf ss cid = some SendStatus.sent) :
    statusOf (applyTransport lookup success recipients ss) cid = some SendStatus.sent := by
  rw [applyTransport_statusOf, h]
  cases hl : lookup cid with
  | none => simp
  | some recipient =>
    cases ht : recipient.sendTarget with
    | none => simp [ht]
    | some i => simp [ht, updateFromResult_sent]

theorem sendPhase_preserves_sent (env : DispatchEnv) (bundle : JobBundle)
    (message : MessageRec) (sendEff : DEff) (recipients : List String) (syncStyle : Bool)
    (cid : String)
    (h : statusOf message.sendStateByConversationId cid = some SendStatus.sent) :
    statusOf (sendPhase env bundle message sendEff recipients syncStyle).sendState cid =
      some SendStatus.sent := by
  simp only [sendPhase]
  repeat' split
  all_goals first
    | exact applyTransport_preserves_sent _ _ _ _ _ h
    | exact markFailedState_preserves_sent _ _ (applyTransport_preserves_sent _ _ _ _ _ h)

theorem sendNormalMessageWithRecipients_preserves_sent (env : DispatchEnv)
    (conversation : Conversation) (bundle : JobBundle) (message : MessageRec)
    (r : ResolvedRecipients) (cid : String)
    (h : statusOf message.sendStateByConversationId cid = some SendStatus.sent) :
    statusOf (sendNormalMessageWithRecipients env conversation bundle message r).sendState
      cid = some SendStatus.sent := by
  unfold sendNormalMessageWithRecipients
  by_cases c1 : (message.conversationId != conversation.id) = true
  · rw [if_pos c1]; exact h
  rw [if_neg c1]
  by_cases c2 : (!message.isOutgoing) = true
  · rw [if_pos c2]; exact h
  rw [if_neg c2]
  by_cases c3 : message.erased = true
  · rw [if_pos c3]; exact h
  rw [if_neg c3]
  by_cases c4 : (!bundle.shouldContinue) = true
  · rw [if_pos c4]; exact markFailedState_preserves_sent _ _ h
  rw [if_neg c4]
  by_cases c5 : (!r.untrustedUuids.isEmpty) = true
  · rw [if_pos c5]
    by_cases c5b : (bundle.isFinalAttempt || env.serverStop) = true
    · rw [if_pos c5b]; exact markFailedState_preserves_sent _ _ h
    · rw [if_neg c5b]; exact h
  rw [if_neg c5]
  by_cases c6 : r.allRecipientIdentifiers.isEmpty = true
  · rw [if_pos c6]; exact h
  rw [if_neg c6]
  by_cases c7 : (message.hasReaction && !message.hasStoryMessage) = true
  · rw [if_pos c7]; exact h
  rw [if_neg c7]
  by_cases c8 : (message.hasReaction && !env.canReact) = true
  · rw [if_pos c8]; exact markFailedState_preserves_sent _ _ h
  rw [if_neg c8]
  by_cases c9 : r.recipientIdentifiersWithoutMe.isEmpty = true
  · rw [if_pos c9]
    by_cases c9b : (!conversation.isMe && !conversation.isGroup
        && r.sentRecipientIdentifiers.isEmpty) = true
    · rw [if_pos c9b]; exact markFailedState_preserves_sent _ _ h
    · rw [if_neg c9b]; exact sendPhase_preserves_sent _ _ _ _ _ _ _ h
  rw [if_neg c9]
  by_cases c10 : conversation.isGroup = true
  · rw [if_pos c10]; exact sendPhase_preserves_sent _ _ _ _ _ _ _ h
  rw [if_neg c10]
  by_cases c11 : (!conversation.accepted) = true
  · rw [if_pos c11]; exact markFailedState_preserves_sent _ _ h
  rw [if_neg c11]
  by_cases c12 : conversation.unregistered = true
  · rw [if_pos c12]; exact markFailedState_preserves_sent _ _ h
  rw [if_neg c12]
  by_cases c13 : conversation.blocked = true
  · rw [if_pos c13]; exact markFailedState_preserves_sent _ _ h
  rw [if_neg c13]
  exact sendPhase_preserves_sent _ _ _ _ _ _ _ h

/-!
Claim C5: sent recipients are classified as already-sent, excluded from
the to-send set, and never regress.
-/

/-- C5: recipient resolution classifies exactly the entries whose status
is Sent (and that survive the membership, trust, registration, block and
target filters) into the already-sent set, and exactly the non-Sent
survivors into the to-send set — so a recipient that reached Sent is
excluded from the to-send set and never re-attempted — and across any
dispatch attempt a recipient whose send state is Sent still has send
state Sent afterwards. -/
theorem C5_sent_classified_and_never_regresses :
    (∀ (lookup : String → Option Conversation) (conversation : Conversation)
        (entries : List (String × SendStatus)),
      (getMessageRecipientsFrom lookup conversation entries).sentRecipientIdentifiers =
        sentTargets lookup conversation entries ∧
      (getMessageRecipientsFrom lookup conversation entries).allRecipientIdentifiers =
        pendingTargets lookup conversation entries) ∧
    (∀ (env : DispatchEnv) (conversation : Conversation) (bundle : JobBundle)
        (msg : MessageRec) (cid : String),
      statusOf msg.sendStateByConversationId cid = some SendStatus.sent →
      statusOf (sendNormalMessage env conversation bundle (some msg)).sendState cid =
        some SendStatus.sent) := by
  constructor
  · intro lookup conversation entries
    induction entries with
    | nil => exact ⟨rfl, rfl⟩
    | cons p rest ih =>
      obtain ⟨ih1, ih2⟩ := ih
      constructor
      · simp only [getMessageRecipientsFrom, sentTargets, pendingTargets, resolvedTarget,
          List.filterMap_cons]
        repeat' split
        all_goals simp_all [sentTargets, pendingTargets, resolvedTarget]
      · simp only [getMessageRecipientsFrom, sentTargets, pendingTargets, resolvedTarget,
          List.filterMap_cons]
        repeat' split
        all_goals simp_all [sentTargets, pendingTargets, resolvedTarget]
  · intro env conversation bundle msg cid h
    simp only [sendNormalMessage]
    exact sendNormalMessageWithRecipients_preserves_sent env conversation bundle msg _ cid h

/-- Witness for C5 at the group scenario: self is already Sent, is
classified into the already-sent set ("ME") and excluded from the
to-send set (R1, R2, R3), and after a dispatch attempt with a partial
transport failure self is still Sent. -/
theorem C5_sent_classified_and_never_regresses_witness :
    (getMessageRecipientsFrom dispatchLookup groupConversation
        groupMessage.sendStateByConversationId).sentRecipientIdentifiers =
      sentTargets dispatchLookup groupConversation groupMessage.sendStateByConversationId ∧
    (getMessageRecipientsFrom dispatchLookup groupConversation
        groupMessage.sendStateByConversationId).sentRecipientIdentifiers = ["ME"] ∧
    (getMessageRecipientsFrom dispatchLookup groupConversation
        groupMessage.sendStateByConversationId).allRecipientIdentifiers =
      ["R1", "R2", "R3"] ∧
    statusOf groupMessage.sendStateByConversationId "me" = some SendStatus.sent ∧
    statusOf (sendNormalMessage dispatchEnvR3Fails groupConversation bundleNotFinal
        (some groupMessage)).sendState "me" = some SendStatus.sent :=
  ⟨(C5_sent_classified_and_never_regresses.1 dispatchLookup groupConversation
      groupMessage.sendStateByConversationId).1,
   by decide, by decide, by decide,
   C5_sent_classified_and_never_regresses.2 dispatchEnvR3Fails groupConversation
     bundleNotFinal groupMessage "me" (by decide)⟩

/-!
Claim C1: untrusted recipients block the attempt before transport.
-/

/-- Counterexample for C1: the claim says that in an attempt whose
resolution finds an untrusted recipient no recipient sendState is
changed.  On a final attempt the modelled give-up handler invokes the
markFailed callback, which marks the still-pending recipients Failed:
with untrusted u and pending r1 the final blocked attempt rewrites both
from Pending to Failed, although no transport call was made. -/
theorem C1_counterexample :
    (getMessageRecipients dispatchEnvR3Fails.getConversation groupConversation
        untrustedMessage).untrustedUuids ≠ [] ∧
    hasTransportEff (sendNormalMessage dispatchEnvR3Fails groupConversation bundleFinal
        (some untrustedMessage)).effs = false ∧
    (sendNormalMessage dispatchEnvR3Fails groupConversation bundleFinal
        (some untrustedMessage)).sendState ≠
      untrustedMessage.sendStateByConversationId := by
  refine ⟨by decide, by decide, by decide⟩

/-- C1 (amended): for every dispatch attempt in which recipient
resolution yields at least one untrusted recipient, sendNormalMessage
raises an error and performs no transport send call; on a non-final
attempt (when the server did not ask us to stop) no recipient sendState
is changed, while on a final attempt the give-up handler marks the
still-pending recipients Failed. -/
theorem C1_untrusted_blocks_before_transport (env : DispatchEnv)
    (conversation : Conversation) (bundle : JobBundle) (msg : MessageRec)
    (hconv : (msg.conversationId != conversation.id) = false)
    (hout : msg.isOutgoing = true)
    (herased : msg.erased = false)
    (hcont : bundle.shouldContinue = true)
    (huntrusted :
      (getMessageRecipients env.getConversation conversation msg).untrustedUuids.isEmpty =
        false) :
    (sendNormalMessage env conversation bundle (some msg)).error.isSome = true ∧
    hasTransportEff (sendNormalMessage env conversation bundle (some msg)).effs = false ∧
    (bundle.isFinalAttempt = false → env.serverStop = false →
      (sendNormalMessage env conversation bundle (some msg)).sendState =
        msg.sendStateByConversationId) := by
  have n1 : ¬ ((msg.conversationId != conversation.id) = true) := by simp [hconv]
  have n2 : ¬ ((!msg.isOutgoing) = true) := by simp [hout]
  have n3 : ¬ (msg.erased = true) := by simp [herased]
  have n4 : ¬ ((!bundle.shouldContinue) = true) := by simp [hcont]
  have p5 :
      (!(getMessageRecipients env.getConversation conversation msg).untrustedUuids.isEmpty) =
        true := by simp [huntrusted]
  simp only [sendNormalMessage]
  unfold sendNormalMessageWithRecipients
  rw [if_neg n1, if_neg n2, if_neg n3, if_neg n4, if_pos p5]
  by_cases c5b : (bundle.isFinalAttempt || env.serverStop) = true
  · rw [if_pos c5b]
    refine ⟨rfl, by simp [hasTransportEff, isTransportEff], ?_⟩
    intro hf hs
    rw [hf, hs] at c5b
    simp at c5b
  · rw [if_neg c5b]
    exact ⟨rfl, by simp [hasTransportEff, isTransportEff], fun _ _ => rfl⟩

/-- Witness for C1 on a non-final attempt: the untrusted recipient blocks
the attempt with an error, no transport effect appears, and the send
state is unchanged. -/
theorem C1_untrusted_blocks_before_transport_witness :
    (sendNormalMessage dispatchEnvR3Fails groupConversation bundleNotFinal
        (some untrustedMessage)).error.isSome = true ∧
    hasTransportEff (sendNormalMessage dispatchEnvR3Fails groupConversation bundleNotFinal
        (some untrustedMessage)).effs = false ∧
    (sendNormalMessage dispatchEnvR3Fails groupConversation bundleNotFinal
        (some untrustedMessage)).sendState =
      untrustedMessage.sendStateByConversationId := by
  have h := C1_untrusted_blocks_before_transport dispatchEnvR3Fails groupConversation
    bundleNotFinal untrustedMessage (by decide) (by decide) (by decide) (by decide) (by decide)
  exact ⟨h.1, h.2.1, h.2.2 (by decide) (by decide)⟩

/-!
Claim C6: non-final attempts keep send errors transient.
-/

/-- C6: on a non-final group dispatch attempt (server not asking to
stop) where the transport reports per-recipient errors and not every
recipient ended Sent, the run updates the send state for every recipient
from the transport result, records the errors only through the transient
saveErrors callback, writes nothing durable, and reports the attempt as
failed for retry.  Durable error writes happen only on final attempts or
when the failure handler gives up. -/
theorem C6_errors_transient_unless_final (env : DispatchEnv) (conversation : Conversation)
    (msg : MessageRec) (r : ResolvedRecipients) (errs : List String)
    (hr : getMessageRecipients env.getConversation conversation msg = r)
    (hconv : (msg.conversationId != conversation.id) = false)
    (hout : msg.isOutgoing = true)
    (herased : msg.erased = false)
    (huntrusted : r.untrustedUuids.isEmpty = true)
    (hall : r.allRecipientIdentifiers.isEmpty = false)
    (hreaction : msg.hasReaction = false)
    (hwo : r.recipientIdentifiersWithoutMe.isEmpty = false)
    (hgroup : conversation.isGroup = true)
    (hserver : env.serverStop = false)
    (herrs : errs = (r.recipientIdentifiersWithoutMe.filter
      (fun i => !env.transportSuccess i)).map (fun i => String.append "send failed to " i))
    (herrne : errs.isEmpty = false)
    (hnotall : didSendToEveryone (applyTransport env.getConversation env.transportSuccess
      r.recipientIdentifiersWithoutMe msg.sendStateByConversationId) = false) :
    sendNormalMessage env conversation { isFinalAttempt := false, shouldContinue := true }
        (some msg) =
      { sendState := applyTransport env.getConversation env.transportSuccess
          r.recipientIdentifiersWithoutMe msg.sendStateByConversationId,
        effs := [DEff.sendGroup r.recipientIdentifiersWithoutMe,
          DEff.transientSaveErrors errs],
        error := some "message did not fully send" } ∧
    hasDurablePersist (sendNormalMessage env conversation
      { isFinalAttempt := false, shouldContinue := true } (some msg)).effs = false := by
  have n1 : ¬ ((msg.conversationId != conversation.id) = true) := by simp [hconv]
  have n2 : ¬ ((!msg.isOutgoing) = true) := by simp [hout]
  have n3 : ¬ (msg.erased = true) := by simp [herased]
  have n4 : ¬ ((!JobBundle.shouldContinue
      { isFinalAttempt := false, shouldContinue := true }) = true) := by simp
  have n5 : ¬ ((!r.untrustedUuids.isEmpty) = true) := by simp [huntrusted]
  have n6 : ¬ (r.allRecipientIdentifiers.isEmpty = true) := by simp [hall]
  have n7 : ¬ ((msg.hasReaction && !msg.hasStoryMessage) = true) := by simp [hreaction]
  have n8 : ¬ ((msg.hasReaction && !env.canReact) = true) := by simp [hreaction]
  have n9 : ¬ (r.recipientIdentifiersWithoutMe.isEmpty = true) := by simp [hwo]
  have hmain : sendNormalMessage env conversation
      { isFinalAttempt := false, shouldContinue := true } (some msg) =
      sendPhase env { isFinalAttempt := false, shouldContinue := true } msg
        (DEff.sendGroup r.recipientIdentifiersWithoutMe)
        r.recipientIdentifiersWithoutMe false := by
    simp only [sendNormalMessage, hr]
    unfold sendNormalMessageWithRecipients
    rw [if_neg n1, if_neg n2, if_neg n3, if_neg n4, if_neg n5, if_neg n6, if_neg n7,
      if_neg n8, if_neg n9, if_pos hgroup]
  have hphase : sendPhase env { isFinalAttempt := false, shouldContinue := true } msg
      (DEff.sendGroup r.recipientIdentifiersWithoutMe)
      r.recipientIdentifiersWithoutMe false =
      { sendState := applyTransport env.getConversation env.transportSuccess
          r.recipientIdentifiersWithoutMe msg.sendStateByConversationId,
        effs := [DEff.sendGroup r.recipientIdentifiersWithoutMe,
          DEff.transientSaveErrors errs],
        error := some "message did not fully send" } := by
    unfold sendPhase
    rw [← herrs]
    simp [herrne, hnotall, hserver]
  rw [hmain, hphase]
  exact ⟨rfl, by simp [hasDurablePersist, isDurablePersistEff]⟩

/-- Witness for C6, the spec scenario: a group of three recipients, the
transport succeeds for R1 and R2 and fails for R3, non-final attempt.
All three recipients (and self) have their state updated, the error is
recorded only in the transient list, nothing durable is written, and the
attempt reports failure for retry. -/
theorem C6_errors_transient_unless_final_witness :
    sendNormalMessage dispatchEnvR3Fails groupConversation
        { isFinalAttempt := false, shouldContinue := true } (some groupMessage) =
      { sendState :=
          [("r1", SendStatus.sent), ("r2", SendStatus.sent), ("r3", SendStatus.failed),
           ("me", SendStatus.sent)],
        effs := [DEff.sendGroup ["R1", "R2", "R3"],
          DEff.transientSaveErrors ["send failed to R3"]],
        error := some "message did not fully send" } ∧
    hasDurablePersist (sendNormalMessage dispatchEnvR3Fails groupConversation
        { isFinalAttempt := false, shouldContinue := true } (some groupMessage)).effs =
      false := by
  have h := C6_errors_transient_unless_final dispatchEnvR3Fails groupConversation
    groupMessage
    (getMessageRecipients dispatchEnvR3Fails.getConversation groupConversation groupMessage)
    ["send failed to R3"] rfl (by decide) (by decide) (by decide) (by decide) (by decide)
    (by decide) (by decide) (by decide) (by decide) (by decide) (by decide) (by decide)
  refine ⟨?_, h.2⟩
  rw [h.1]
  decide

/-!
Claim C7: the sync-only path.
-/

/-- Counterexample for C7: the claim says that whenever the to-send set
without self is empty and the conversation is a self-conversation or some
recipients were already sent, exactly one sync-only send is performed.
At this concrete input (note-to-self whose only entry is already Sent —
so the conversation is a self-conversation and the already-sent set is
nonempty) the dispatcher returns from the earlier already-sent-to-
everyone guard without performing any send at all. -/
theorem C7_counterexample :
    (getMessageRecipients dispatchEnvAllOk.getConversation selfConversation
        selfSentMessage).recipientIdentifiersWithoutMe = [] ∧
    selfConversation.isMe = true ∧
    (getMessageRecipients dispatchEnvAllOk.getConversation selfConversation
        selfSentMessage).sentRecipientIdentifiers ≠ [] ∧
    syncSendCount (sendNormalMessage dispatchEnvAllOk selfConversation bundleNotFinal
        (some selfSentMessage)).effs = 0 ∧
    (sendNormalMessage dispatchEnvAllOk selfConversation bundleNotFinal
        (some selfSentMessage)).effs = [] := by
  refine ⟨by decide, by decide, by decide, by decide, by decide⟩

/-- C7 (amended): whenever the to-send set without self is empty, the
full to-send set is nonempty, and the conversation is a self-conversation
or some recipients were already sent, the dispatcher performs exactly one
sync-only send, enters neither the group nor the direct path, and — when
the sync transport succeeds — finishes without error and without any
durable failure write; if instead the full to-send set is empty, the
attempt returns with no send at all. -/
theorem C7_sync_only_send (env : DispatchEnv) (conversation : Conversation)
    (bundle : JobBundle) (msg : MessageRec) (r : ResolvedRecipients)
    (hr : getMessageRecipients env.getConversation conversation msg = r)
    (hconv : (msg.conversationId != conversation.id) = false)
    (hout : msg.isOutgoing = true)
    (herased : msg.erased = false)
    (hcont : bundle.shouldContinue = true)
    (huntrusted : r.untrustedUuids.isEmpty = true)
    (hall : r.allRecipientIdentifiers.isEmpty = false)
    (hreaction : msg.hasReaction = false)
    (hwo : r.recipientIdentifiersWithoutMe.isEmpty = true)
    (hcond : conversation.isMe = true ∨ r.sentRecipientIdentifiers ≠ [])
    (hok : r.allRecipientIdentifiers.filter (fun i => !env.transportSuccess i) = []) :
    syncSendCount (sendNormalMessage env conversation bundle (some msg)).effs = 1 ∧
    groupSendCount (sendNormalMessage env conversation bundle (some msg)).effs = 0 ∧
    directSendCount (sendNormalMessage env conversation bundle (some msg)).effs = 0 ∧
    (sendNormalMessage env conversation bundle (some msg)).error = none ∧
    hasDurablePersist (sendNormalMessage env conversation bundle (some msg)).effs =
      false := by
  have n1 : ¬ ((msg.conversationId != conversation.id) = true) := by simp [hconv]
  have n2 : ¬ ((!msg.isOutgoing) = true) := by simp [hout]
  have n3 : ¬ (msg.erased = true) := by simp [herased]
  have n4 : ¬ ((!bundle.shouldContinue) = true) := by simp [hcont]
  have n5 : ¬ ((!r.untrustedUuids.isEmpty) = true) := by simp [huntrusted]
  have n6 : ¬ (r.allRecipientIdentifiers.isEmpty = true) := by simp [hall]
  have n7 : ¬ ((msg.hasReaction && !msg.hasStoryMessage) = true) := by simp [hreaction]
  have n8 : ¬ ((msg.hasReaction && !env.canReact) = true) := by simp [hreaction]
  have n9b : ¬ ((!conversation.isMe && !conversation.isGroup
      && r.sentRecipientIdentifiers.isEmpty) = true) := by
    rcases hcond with hme | hsent
    · simp [hme]
    · simp [hsent]
  have hmain : sendNormalMessage env conversation bundle (some msg) =
      sendPhase env bundle msg (DEff.sendSync r.allRecipientIdentifiers)
        r.allRecipientIdentifiers true := by
    simp only [sendNormalMessage, hr]
    unfold sendNormalMessageWithRecipients
    rw [if_neg n1, if_neg n2, if_neg n3, if_neg n4, if_neg n5, if_neg n6, if_neg n7,
      if_neg n8, if_pos hwo, if_neg n9b]
  have hphase : sendPhase env bundle msg (DEff.sendSync r.allRecipientIdentifiers)
      r.allRecipientIdentifiers true =
      { sendState := applyTransport env.getConversation env.transportSuccess
          r.allRecipientIdentifiers msg.sendStateByConversationId,
        effs := [DEff.sendSync r.allRecipientIdentifiers],
        error := none } := by
    unfold sendPhase
    rw [hok]
    simp
  rw [hmain, hphase]
  refine ⟨by simp [syncSendCount], by simp [groupSendCount], by simp [directSendCount],
    rfl, by simp [hasDurablePersist, isDurablePersistEff]⟩

/-- Witness for C7: a note-to-self message still pending for self;
exactly one sync send, no group or direct path, no error. -/
theorem C7_sync_only_send_witness :
    syncSendCount (sendNormalMessage dispatchEnvAllOk selfConversation bundleNotFinal
        (some selfPendingMessage)).effs = 1 ∧
    groupSendCount (sendNormalMessage dispatchEnvAllOk selfConversation bundleNotFinal
        (some selfPendingMessage)).effs = 0 ∧
    directSendCount (sendNormalMessage dispatchEnvAllOk selfConversation bundleNotFinal
        (some selfPendingMessage)).effs = 0 ∧
    (sendNormalMessage dispatchEnvAllOk selfConversation bundleNotFinal
        (some selfPendingMessage)).error = none :=
  have h := C7_sync_only_send dispatchEnvAllOk selfConversation bundleNotFinal
    selfPendingMessage
    (getMessageRecipients dispatchEnvAllOk.getConversation selfConversation
      selfPendingMessage)
    rfl (by decide) (by decide) (by decide) (by decide) (by decide) (by decide) (by decide)
    (by decide) (Or.inl (by decide)) (by decide)
  ⟨h.1, h.2.1, h.2.2.1, h.2.2.2.1⟩
